import Mathlib

/-!
Verification of the wuwa record converter (Excel and tracker-JSON converters).

The Lean definitions below are a shallow embedding of `src/config.py`,
`src/wuwatool_excel_converter.py` and `src/wuwatracker_json_converter.py`.
Python dictionaries are modelled as insertion-ordered association lists,
`dict.get` as `alookup`, optional JSON fields as `Option`, and the Python
`datetime.strptime` / `datetime.fromisoformat` / `strftime` calls used by
`_convert_time_format` are modelled as executable parsers over character
lists (timezone second components and sub-second fractions of the stdlib
grammar are not modelled; no claim exercises them).
-/

namespace WuwaConvert

/-- Association-list lookup modelling Python `dict.get(key)` on dictionaries
built with `dictInsert` (keys are unique, so first match equals dict lookup). -/
def alookup {α β : Type} [DecidableEq α] : List (α × β) → α → Option β
  | [], _ => none
  | (k, v) :: rest, key => if key = k then some v else alookup rest key

/-- Python dict assignment `m[k] = v`: overwrite the value of an existing key,
otherwise append, preserving insertion order. -/
def dictInsert {α β : Type} [DecidableEq α] (m : List (α × β)) (k : α) (v : β) :
    List (α × β) :=
  if m.any (fun p => decide (p.1 = k)) then
    m.map (fun p => if p.1 = k then (k, v) else p)
  else m ++ [(k, v)]

/-- `Config.POOLTYPE_MAPPING` from `src/config.py`. -/
def POOLTYPE_MAPPING : List (String × String) :=
  [("角色精准调谐", "1"),
   ("武器精准调谐", "2"),
   ("角色调谐（常驻池）", "3"),
   ("武器调谐（常驻池）", "4"),
   ("新手调谐", "5"),
   ("新手自选唤取", "6"),
   ("新手自选唤取（感恩定向唤取）", "7"),
   ("角色新旅唤取", "8"),
   ("武器新旅唤取", "9")]

/-- `Config.RESOURCE_TYPE_MAPPING` from `src/config.py`. -/
def RESOURCE_TYPE_MAPPING : List (String × String) :=
  [("Weapon", "武器"), ("Character", "角色")]

/-- `Config.REQUIRED_COLUMNS` from `src/config.py`. -/
def REQUIRED_COLUMNS : List String :=
  ["卡池", "资源ID", "星级", "类型", "名称", "数量", "时间"]

/-- Model of a Python naive-or-aware `datetime` value as produced by the
parsing routines used in `_convert_time_format`. -/
structure PyDateTime where
  year : Nat
  month : Nat
  day : Nat
  hour : Nat
  minute : Nat
  second : Nat
  tzOffsetMinutes : Option Int
  deriving DecidableEq, Repr

/-- Gregorian leap-year rule used by `datetime`. -/
def isLeapYear (y : Nat) : Bool :=
  y % 4 = 0 && (y % 100 ≠ 0 || y % 400 = 0)

/-- Number of days in a month, as validated by the `datetime` constructor. -/
def daysInMonth (y m : Nat) : Nat :=
  if m = 2 then (if isLeapYear y then 29 else 28)
  else if m = 4 ∨ m = 6 ∨ m = 9 ∨ m = 11 then 30
  else 31

/-- Field validation performed by the Python `datetime` constructor. -/
def mkDateTime (y mo d h mi se : Nat) (tz : Option Int) : Option PyDateTime :=
  if 1 ≤ y ∧ y ≤ 9999 ∧ 1 ≤ mo ∧ mo ≤ 12 ∧ 1 ≤ d ∧ d ≤ daysInMonth y mo ∧
      h ≤ 23 ∧ mi ≤ 59 ∧ se ≤ 59 then
    some ⟨y, mo, d, h, mi, se, tz⟩
  else none

/-- Parse exactly `n` decimal digits, accumulating into `acc`. -/
def parseFixedDigits : Nat → Nat → List Char → Option (Nat × List Char)
  | 0, acc, cs => some (acc, cs)
  | n + 1, acc, c :: cs =>
    if c.isDigit then parseFixedDigits n (acc * 10 + (c.toNat - '0'.toNat)) cs
    else none
  | _ + 1, _, [] => none

/-- Consume one expected character. -/
def expectChar (c : Char) : List Char → Option (List Char)
  | d :: cs => if d = c then some cs else none
  | [] => none

/-- One-or-two digit numeric field of `strptime` (e.g. `%m`, `%d`, `%H`):
prefer two digits when the value lies in `[lo, hi]`, otherwise fall back to a
single digit, mirroring the stdlib regular expression with backtracking. -/
def parse1or2 (lo hi : Nat) : List Char → Option (Nat × List Char)
  | c1 :: c2 :: rest =>
    if c1.isDigit then
      if c2.isDigit then
        let v2 := (c1.toNat - '0'.toNat) * 10 + (c2.toNat - '0'.toNat)
        if lo ≤ v2 ∧ v2 ≤ hi then some (v2, rest)
        else
          let v1 := c1.toNat - '0'.toNat
          if lo ≤ v1 ∧ v1 ≤ hi then some (v1, c2 :: rest) else none
      else
        let v1 := c1.toNat - '0'.toNat
        if lo ≤ v1 ∧ v1 ≤ hi then some (v1, c2 :: rest) else none
    else none
  | [c1] =>
    if c1.isDigit then
      let v1 := c1.toNat - '0'.toNat
      if lo ≤ v1 ∧ v1 ≤ hi then some (v1, []) else none
    else none
  | [] => none

/-- Magnitude part of a `%z` offset: `HH`, optional colon, `MM`. -/
def parseOffsetMag (cs : List Char) : Option (Int × List Char) := do
  let (hh, cs1) ← parseFixedDigits 2 0 cs
  if hh ≤ 23 then
    let cs2 := match cs1 with
      | ':' :: r => r
      | r => r
    let (mm, cs3) ← parseFixedDigits 2 0 cs2
    if mm ≤ 59 then some (((hh * 60 + mm : Nat) : Int), cs3) else none
  else none

/-- The `%z` directive of `strptime`: a literal `Z` or a signed offset. -/
def parseTz : List Char → Option (Int × List Char)
  | 'Z' :: rest => some (0, rest)
  | '+' :: rest => (parseOffsetMag rest).map (fun p => (p.1, p.2))
  | '-' :: rest => (parseOffsetMag rest).map (fun p => (-p.1, p.2))
  | _ => none

/-- Shared body of the three configured input formats:
`%Y-%m-%d` then the separator `sep` then `%H:%M:%S`. -/
def parseDateTimeBody (sep : Char) (cs : List Char) :
    Option ((Nat × Nat × Nat × Nat × Nat × Nat) × List Char) := do
  let (y, cs) ← parseFixedDigits 4 0 cs
  let cs ← expectChar '-' cs
  let (mo, cs) ← parse1or2 1 12 cs
  let cs ← expectChar '-' cs
  let (d, cs) ← parse1or2 1 31 cs
  let cs ← expectChar sep cs
  let (h, cs) ← parse1or2 0 23 cs
  let cs ← expectChar ':' cs
  let (mi, cs) ← parse1or2 0 59 cs
  let cs ← expectChar ':' cs
  let (se, cs) ← parse1or2 0 61 cs
  some ((y, mo, d, h, mi, se), cs)

/-- `datetime.strptime(s, "%Y-%m-%dT%H:%M:%S%z")`, the first entry of
`Config.INPUT_TIME_FORMATS`; the whole string must be consumed. -/
def strptimeIsoTzFn (s : String) : Option PyDateTime := do
  let ((y, mo, d, h, mi, se), cs) ← parseDateTimeBody 'T' s.toList
  let (tz, cs2) ← parseTz cs
  if cs2 = [] then mkDateTime y mo d h mi se (some tz) else none

/-- `datetime.strptime(s, "%Y-%m-%dT%H:%M:%S")`, the second entry of
`Config.INPUT_TIME_FORMATS`. -/
def strptimeIsoNoTzFn (s : String) : Option PyDateTime := do
  let ((y, mo, d, h, mi, se), cs) ← parseDateTimeBody 'T' s.toList
  if cs = [] then mkDateTime y mo d h mi se none else none

/-- `datetime.strptime(s, "%Y-%m-%d %H:%M:%S")`, the third entry of
`Config.INPUT_TIME_FORMATS`. -/
def strptimeSpaceFn (s : String) : Option PyDateTime := do
  let ((y, mo, d, h, mi, se), cs) ← parseDateTimeBody ' ' s.toList
  if cs = [] then mkDateTime y mo d h mi se none else none

/-- Time component `HH[:MM[:SS[.fff]]]` of `datetime.fromisoformat`. -/
def parseIsoTime (cs : List Char) : Option ((Nat × Nat × Nat) × List Char) :=
  match parseFixedDigits 2 0 cs with
  | none => none
  | some (h, cs1) =>
    match cs1 with
    | ':' :: cs2 =>
      match parseFixedDigits 2 0 cs2 with
      | none => none
      | some (mi, cs3) =>
        match cs3 with
        | ':' :: cs4 =>
          match parseFixedDigits 2 0 cs4 with
          | none => none
          | some (se, cs5) =>
            match cs5 with
            | '.' :: cs6 =>
              let ds := cs6.takeWhile Char.isDigit
              if ds.length = 3 ∨ ds.length = 6 then
                some ((h, mi, se), cs6.drop ds.length)
              else none
            | _ => some ((h, mi, se), cs5)
        | _ => some ((h, mi, 0), cs3)
    | _ => some ((h, 0, 0), cs1)

/-- Model of `datetime.fromisoformat`: `YYYY-MM-DD`, optionally followed by a
single separator character, a time component, and a `+HH:MM[:SS]` offset. -/
def fromisoformatFn (s : String) : Option PyDateTime := do
  let cs0 := s.toList
  let (y, cs1) ← parseFixedDigits 4 0 cs0
  let cs2 ← expectChar '-' cs1
  let (mo, cs3) ← parseFixedDigits 2 0 cs2
  let cs4 ← expectChar '-' cs3
  let (d, cs5) ← parseFixedDigits 2 0 cs4
  match cs5 with
  | [] => mkDateTime y mo d 0 0 0 none
  | _ :: cs6 => do
    let ((h, mi, se), cs7) ← parseIsoTime cs6
    match cs7 with
    | [] => mkDateTime y mo d h mi se none
    | c :: cs8 =>
      if c = '+' ∨ c = '-' then do
        let (ohh, cs9) ← parseFixedDigits 2 0 cs8
        let cs10 ← expectChar ':' cs9
        let (omm, cs11) ← parseFixedDigits 2 0 cs10
        let cs12 := match cs11 with
          | ':' :: d1 :: d2 :: r =>
            if d1.isDigit && d2.isDigit then r else ':' :: d1 :: d2 :: r
          | r => r
        if cs12 = [] ∧ ohh ≤ 23 ∧ omm ≤ 59 then
          mkDateTime y mo d h mi se
            (some ((if c = '-' then (-1 : Int) else 1) * ((ohh * 60 + omm : Nat) : Int)))
        else none
      else none

/-- Zero-padded decimal rendering used by `strftime`. -/
def padNum (width n : Nat) : String :=
  let s := toString n
  String.mk (List.replicate (width - s.length) '0') ++ s

/-- `dt.strftime(Config.OUTPUT_TIME_FORMAT)` with format `%Y-%m-%d %H:%M:%S`
(the timezone, if any, is not printed and no conversion happens). -/
def strftimeOut (dt : PyDateTime) : String :=
  padNum 4 dt.year ++ "-" ++ padNum 2 dt.month ++ "-" ++ padNum 2 dt.day ++ " " ++
    padNum 2 dt.hour ++ ":" ++ padNum 2 dt.minute ++ ":" ++ padNum 2 dt.second

/-- The loop `for fmt in Config.INPUT_TIME_FORMATS` of `_convert_time_format`,
unrolled over the three-element constant format list: first successful parse
wins. -/
def tryInputFormats (s : String) : Option PyDateTime :=
  match strptimeIsoTzFn s with
  | some dt => some dt
  | none =>
    match strptimeIsoNoTzFn s with
    | some dt => some dt
    | none => strptimeSpaceFn s

/-- The reassignment `time_str = time_str[:-1] + "+00:00"` performed inside
`_convert_time_format` when the string ends with `Z` (identity otherwise). -/
def zFix (s : String) : String :=
  if s.toList.getLast? = some 'Z' then
    String.mk (s.toList.dropLast ++ "+00:00".toList)
  else s

/-- `JsonConverter._convert_time_format` from
`src/wuwatracker_json_converter.py`. Note that when the ISO fallback branch is
taken and also fails, the function returns the locally reassigned `time_str`,
i.e. the string with a trailing `Z` already replaced by `+00:00`. -/
def convert_time_format (s : String) : String :=
  if s = "" then ""
  else
    match tryInputFormats s with
    | some dt => strftimeOut dt
    | none =>
      if s.toList.contains 'T' then
        match fromisoformatFn (zFix s) with
        | some dt => strftimeOut dt
        | none => zFix s
      else s

/-- A Python value that is either an `int` or a `str`, the declared type of the
`cardPoolType` input field. -/
inductive IntOrStr where
  | int (n : Int)
  | str (s : String)
  deriving DecidableEq, Repr

/-- Python `str(x)` / f-string interpolation on an `int | str` value. -/
def pyStr : IntOrStr → String
  | .int n => toString n
  | .str s => s

/-- The reverse mapping dict comprehension built inside
`JsonConverter._convert_card_pool_type` over `Config.POOLTYPE_MAPPING`. -/
def reverse_mapping : List (String × String) :=
  POOLTYPE_MAPPING.foldl (fun acc kv => dictInsert acc kv.2 kv.1) []

/-- `JsonConverter._convert_card_pool_type` from
`src/wuwatracker_json_converter.py`. -/
def convert_card_pool_type (pool_type : IntOrStr) : String :=
  (alookup reverse_mapping (pyStr pool_type)).getD (pyStr pool_type)

/-- `JsonConverter._convert_resource_type` from
`src/wuwatracker_json_converter.py`. -/
def convert_resource_type (resource_type : String) : String :=
  (alookup RESOURCE_TYPE_MAPPING resource_type).getD resource_type

/-- The `ResourceMapper` dataclass: the two id-to-localized-name dictionaries. -/
structure ResourceMapper where
  weapon_map : List (Int × String)
  character_map : List (Int × String)
  deriving DecidableEq, Repr

/-- The mapper holding two empty maps, the state after both remote lookups
fail (`_load_resource_mappings` with an unreachable endpoint). -/
def emptyMapper : ResourceMapper := ⟨[], []⟩

/-- `JsonConverter._convert_name` from `src/wuwatracker_json_converter.py`.
Returns the resolved name together with whether the warning branch was taken.
Python truthiness of `chinese_name` means a looked-up empty string falls
through to the original name exactly like a missing key. -/
def convert_name (m : ResourceMapper) (resource_id : Int) (resource_type : String)
    (original_name : String) : String × Bool :=
  let chinese_name : Option String :=
    if resource_type = "Weapon" then alookup m.weapon_map resource_id
    else if resource_type = "Character" then alookup m.character_map resource_id
    else none
  match chinese_name with
  | some n =>
    if n = "" then
      (original_name, resource_type = "Weapon" || resource_type = "Character")
    else (n, false)
  | none =>
    (original_name, resource_type = "Weapon" || resource_type = "Character")

/-- One entry of the remote weapon/character JSON list, with its `Id` and
`Name` fields read via `.get` (absent keys give `None`). -/
structure ApiEntry where
  idField : Option Int
  nameField : Option String
  deriving DecidableEq, Repr

/-- Python truthiness of an `int | None` value. -/
def truthyInt : Option Int → Bool
  | some n => n ≠ 0
  | none => false

/-- Python truthiness of a `str | None` value. -/
def truthyStr : Option String → Bool
  | some s => s ≠ ""
  | none => false

/-- The map-building loop shared by `_load_weapon_mapping` and
`_load_character_mapping`: keep an entry only when both its id and its name
are truthy. -/
def load_mapping (entries : List ApiEntry) : List (Int × String) :=
  entries.foldl
    (fun acc e =>
      if truthyInt e.idField && truthyStr e.nameField then
        dictInsert acc (e.idField.getD 0) (e.nameField.getD "")
      else acc)
    []

/-- `InputRecord` from `src/wuwatracker_json_converter.py`; every field is
optional because `_convert_record` reads each one with `.get` and a default. -/
structure InputRecord where
  cardPoolType : Option IntOrStr
  resourceId : Option Int
  qualityLevel : Option Int
  name : Option String
  resourceType : Option String
  count : Option Int
  time : Option String
  isSorted : Option Bool
  group : Option Int
  deriving DecidableEq, Repr

/-- `Record` from `src/config.py`, the canonical output record shape. -/
structure Record where
  cardPoolType : String
  resourceId : Int
  qualityLevel : Int
  resourceType : String
  name : String
  count : Int
  time : String
  deriving DecidableEq, Repr

/-- `JsonConverter._convert_record`: field defaults applied via `.get`, then
the four field conversions. The Python body is wrapped in a `try` that
returns `None` on error; no operation in the body can raise, so the model
always returns `some`. -/
def convert_record (m : ResourceMapper) (r : InputRecord) : Option Record :=
  some
    { cardPoolType := convert_card_pool_type (r.cardPoolType.getD (.int 0)),
      resourceId := r.resourceId.getD 0,
      qualityLevel := r.qualityLevel.getD 3,
      resourceType := convert_resource_type (r.resourceType.getD ""),
      name := (convert_name m (r.resourceId.getD 0) (r.resourceType.getD "")
        (r.name.getD "")).1,
      count := r.count.getD 1,
      time := convert_time_format (r.time.getD "") }

/-- The record loop of `_process_json_data` and `_process_sheet_data`: convert
each item, append the result when conversion succeeded, continue otherwise. -/
def collectConverted {α β : Type} (conv : α → Option β) : List α → List β
  | [] => []
  | x :: xs =>
    match conv x with
    | some r => r :: collectConverted conv xs
    | none => collectConverted conv xs

/-- `InputJsonData` from `src/wuwatracker_json_converter.py`; `playerId` and
`pulls` are read with `.get` and so are optional (`version` and `date` are
never read). -/
structure InputJsonData where
  playerId : Option String
  pulls : Option (List InputRecord)
  deriving DecidableEq, Repr

/-- Outcome of a converter run: the boolean returned by `process`, plus the
`uid` and record list of the converter's `export_data` afterwards. -/
structure Outcome where
  ok : Bool
  uid : String
  recList : List Record
  deriving DecidableEq, Repr

/-- `JsonConverter._process_json_data`: set the uid from `playerId`
(default `"unknown"`), then convert each pull, collecting successes; always
returns `True` since no statement in the managed body raises. -/
def processJsonData (m : ResourceMapper) (j : InputJsonData) : Outcome :=
  { ok := true,
    uid := j.playerId.getD "unknown",
    recList := collectConverted (convert_record m) (j.pulls.getD []) }

/-- The observable state of the input file handed to `JsonConverter.process`:
existence, readability, and the result of `json.load` (`none` when the
document is not a valid JSON object of the expected shape). -/
structure JsonFileM where
  ex : Bool
  rd : Bool
  parsed : Option InputJsonData
  deriving DecidableEq, Repr

/-- `JsonConverter.process` from `src/wuwatracker_json_converter.py`: the
missing-file, unreadable-file and JSON-decode errors are each caught and
turned into `False` with the export data left in its initial state
(uid `"unknown"`, empty record list). -/
def json_process (m : ResourceMapper) (f : JsonFileM) : Outcome :=
  if f.ex = false then ⟨false, "unknown", []⟩
  else if f.rd = false then ⟨false, "unknown", []⟩
  else
    match f.parsed with
    | none => ⟨false, "unknown", []⟩
    | some j => processJsonData m j

/-- Python `str.isdigit` restricted to ASCII digit strings: nonempty and all
characters are digits. -/
def pyIsdigit (s : String) : Bool :=
  !s.isEmpty && s.toList.all Char.isDigit

/-- `ExcelProcessor._process_uid`: the first purely-numeric sheet name becomes
the uid; the loop breaks at the first hit and leaves `"unknown"` otherwise. -/
def process_uid : List String → String
  | [] => "unknown"
  | n :: ns => if pyIsdigit n then n else process_uid ns

/-- A cell value of a spreadsheet row, as handed to `_create_record`. -/
inductive Cell where
  | int (n : Int)
  | str (s : String)
  deriving DecidableEq, Repr

/-- Python `str(cell)`. -/
def cellToStr : Cell → String
  | .int n => toString n
  | .str s => s

/-- Python `int("...")`: strip whitespace, optional sign, then decimal digits;
anything else raises `ValueError` (modelled as `none`). -/
def pyParseInt (s : String) : Option Int :=
  let t := s.trim.toList
  match t with
  | '-' :: ds =>
    if ds ≠ [] ∧ ds.all Char.isDigit then
      some (-(Int.ofNat (ds.foldl (fun acc c => acc * 10 + (c.toNat - '0'.toNat)) 0)))
    else none
  | '+' :: ds =>
    if ds ≠ [] ∧ ds.all Char.isDigit then
      some (Int.ofNat (ds.foldl (fun acc c => acc * 10 + (c.toNat - '0'.toNat)) 0))
    else none
  | ds =>
    if ds ≠ [] ∧ ds.all Char.isDigit then
      some (Int.ofNat (ds.foldl (fun acc c => acc * 10 + (c.toNat - '0'.toNat)) 0))
    else none

/-- Python `int(cell)`: identity on ints, strict parse on strings. -/
def cellToInt : Cell → Option Int
  | .int n => some n
  | .str s => pyParseInt s

/-- A spreadsheet row: the mapping from column label to cell value. -/
abbrev Row : Type := List (String × Cell)

/-- `ExcelProcessor._create_record`: read the seven named columns and coerce
them; any missing column or failed `int` coercion raises and the row is
skipped by the caller (modelled as `none`). -/
def create_record (row : Row) : Option Record := do
  let cp ← alookup row "卡池"
  let rid ← alookup row "资源ID"
  let ql ← alookup row "星级"
  let rt ← alookup row "类型"
  let nm ← alookup row "名称"
  let ct ← alookup row "数量"
  let tm ← alookup row "时间"
  let ridI ← cellToInt rid
  let qlI ← cellToInt ql
  let ctI ← cellToInt ct
  some
    { cardPoolType := cellToStr cp,
      resourceId := ridI,
      qualityLevel := qlI,
      resourceType := cellToStr rt,
      name := cellToStr nm,
      count := ctI,
      time := cellToStr tm }

/-- One sheet of a workbook after reading: its name, its column header list,
and its data rows. -/
structure Sheet where
  name : String
  columns : List String
  rows : List Row
  deriving DecidableEq, Repr

/-- `ExcelProcessor._validate_columns`: the required columns must all be
present; `missing_columns` nonempty raises `ValueError`. -/
def validate_columns (columns : List String) : Bool :=
  REQUIRED_COLUMNS.all (fun c => decide (c ∈ columns))

/-- One iteration of `ExcelProcessor._process_sheets`: a sheet whose column
validation raises contributes no records (the exception is caught and logged);
otherwise every row is converted with the per-row catch-and-skip loop. -/
def process_one_sheet (s : Sheet) : List Record :=
  if validate_columns s.columns then collectConverted create_record s.rows
  else []

/-- `ExcelProcessor._process_sheets`: every sheet is processed in order, each
appending its records to the shared export list. -/
def process_sheets : List Sheet → List Record
  | [] => []
  | s :: rest => process_one_sheet s ++ process_sheets rest

/-- A workbook after `pd.ExcelFile` succeeded. -/
structure Workbook where
  sheets : List Sheet
  deriving DecidableEq, Repr

/-- The observable state of the file handed to `ExcelProcessor.process`:
existence, readability, and the workbook produced by `pd.ExcelFile` (`none`
when reading raises). -/
structure ExcelFileM where
  ex : Bool
  rd : Bool
  wb : Option Workbook
  deriving DecidableEq, Repr

/-- `ExcelProcessor.process` from `src/wuwatool_excel_converter.py`: all
file-level failures are caught and produce `False` with the export data left
in its initial state; otherwise the uid scan and the sheet loop run and the
method returns `True`. -/
def excel_process (f : ExcelFileM) : Outcome :=
  if f.ex = false then ⟨false, "unknown", []⟩
  else if f.rd = false then ⟨false, "unknown", []⟩
  else
    match f.wb with
    | none => ⟨false, "unknown", []⟩
    | some wb =>
      ⟨true, process_uid (wb.sheets.map Sheet.name), process_sheets wb.sheets⟩

/-- The entirely empty pull object: every field absent. -/
def emptyPull : InputRecord :=
  ⟨none, none, none, none, none, none, none, none, none⟩

/-- The record produced from `emptyPull` by `_convert_record`. -/
def defaultRecord : Record :=
  ⟨"0", 0, 3, "", "", 1, ""⟩

theorem collectConverted_eq_filterMap {α β : Type} (conv : α → Option β)
    (l : List α) : collectConverted conv l = l.filterMap conv := by
  induction l with
  | nil => rfl
  | cons x xs ih =>
    cases h : conv x <;> simp [collectConverted, h, ih, List.filterMap_cons]

theorem process_uid_eq_find (names : List String) :
    process_uid names = (names.find? pyIsdigit).getD "unknown" := by
  induction names with
  | nil => rfl
  | cons n ns ih =>
    by_cases h : pyIsdigit n = true <;>
      simp [process_uid, List.find?_cons, h, ih]

theorem process_sheets_eq_join (sheets : List Sheet) :
    process_sheets sheets = (sheets.map process_one_sheet).flatten := by
  induction sheets with
  | nil => rfl
  | cons s rest ih => simp [process_sheets, ih]

theorem alookup_eq_none {α β : Type} [DecidableEq α] (l : List (α × β)) (k : α)
    (h : ∀ p ∈ l, p.1 ≠ k) : alookup l k = none := by
  induction l with
  | nil => rfl
  | cons p rest ih =>
    have hp : p.1 ≠ k := h p (List.mem_cons_self p rest)
    simp only [alookup]
    rw [if_neg (fun hk => hp hk.symm)]
    exact ih (fun q hq => h q (List.mem_cons_of_mem p hq))

theorem alookup_mem {α β : Type} [DecidableEq α] (l : List (α × β)) (k : α)
    (v : β) (h : alookup l k = some v) : (k, v) ∈ l := by
  induction l with
  | nil => simp [alookup] at h
  | cons p rest ih =>
    simp only [alookup] at h
    by_cases hk : k = p.1
    · rw [if_pos hk] at h
      have h2 : p.2 = v := Option.some.inj h
      have hkv : (k, v) = p := by rw [hk, ← h2]
      rw [hkv]
      exact List.mem_cons_self p rest
    · rw [if_neg hk] at h
      exact List.mem_cons_of_mem p (ih h)

theorem mem_dictInsert {α β : Type} [DecidableEq α] (m : List (α × β)) (k k' : α)
    (v v' : β) (h : (k', v') ∈ dictInsert m k v) : (k', v') ∈ m ∨ v' = v := by
  unfold dictInsert at h
  by_cases hany : m.any (fun p => decide (p.1 = k)) = true
  · rw [if_pos hany] at h
    obtain ⟨p, hp, hpe⟩ := List.mem_map.mp h
    by_cases hpk : p.1 = k
    · rw [if_pos hpk] at hpe
      exact Or.inr ((Prod.mk.injEq _ _ _ _ ▸ hpe).2.symm)
    · rw [if_neg hpk] at hpe
      exact Or.inl (hpe ▸ hp)
  · rw [if_neg hany] at h
    rcases List.mem_append.mp h with hm | hm
    · exact Or.inl hm
    · simp at hm
      exact Or.inr hm.2

theorem load_mapping_aux (entries : List ApiEntry) :
    ∀ acc : List (Int × String), (∀ p ∈ acc, p.2 ≠ "") →
      ∀ p ∈ entries.foldl
        (fun acc e =>
          if truthyInt e.idField && truthyStr e.nameField then
            dictInsert acc (e.idField.getD 0) (e.nameField.getD "")
          else acc)
        acc, p.2 ≠ "" := by
  induction entries with
  | nil => intro acc hacc p hp; exact hacc p hp
  | cons e rest ih =>
    intro acc hacc p hp
    rw [List.foldl_cons] at hp
    refine ih _ ?_ p hp
    intro q hq
    by_cases hc : (truthyInt e.idField && truthyStr e.nameField) = true
    · simp only [hc, if_true] at hq
      rcases mem_dictInsert _ _ _ _ _ hq with hm | hm
      · exact hacc q hm
      · have ht : truthyStr e.nameField = true := (Bool.and_eq_true _ _ ▸ hc).2
        cases hn : e.nameField with
        | none => rw [hn] at ht; simp [truthyStr] at ht
        | some nm =>
          rw [hn] at ht
          simp [truthyStr] at ht
          rw [hm, hn]
          simpa using ht
    · simp only [Bool.not_eq_true] at hc
      simp only [hc, Bool.false_eq_true, if_false] at hq
      exact hacc q hq

theorem load_mapping_values_ne_empty (entries : List ApiEntry) :
    ∀ p ∈ load_mapping entries, p.2 ≠ "" := by
  unfold load_mapping
  exact load_mapping_aux entries [] (by intro p hp; cases hp)

/-- C1: for the tracker JSON input with playerId "12345" and the single pull
(cardPoolType "1", resourceId 1, qualityLevel 5, name "TestWeapon",
resourceType "Weapon", count 1, time "2024-01-01T12:00:00Z"), with the weapon
lookup map sending 1 to "测试武器", the converter produces uid "12345" and
exactly one output record (cardPoolType "角色精准调谐", resourceId 1,
qualityLevel 5, resourceType "武器", name "测试武器", count 1,
time "2024-01-01 12:00:00"). -/
theorem c1_end_to_end :
    processJsonData ⟨[(1, "测试武器")], []⟩
      ⟨some "12345",
       some [⟨some (.str "1"), some 1, some 5, some "TestWeapon", some "Weapon",
              some 1, some "2024-01-01T12:00:00Z", none, none⟩]⟩ =
    ⟨true, "12345",
     [⟨"角色精准调谐", 1, 5, "武器", "测试武器", 1, "2024-01-01 12:00:00"⟩]⟩ := by
  decide

/-- C2 counterexample: on the input "notTaZ" every configured strptime format
fails and the general ISO parse of the Z-replaced string fails, yet
`_convert_time_format` does not return the original string verbatim: it
returns the Z-replaced string "notTa+00:00". -/
theorem c2_time_format_counterexample :
    strptimeIsoTzFn "notTaZ" = none ∧
    strptimeIsoNoTzFn "notTaZ" = none ∧
    strptimeSpaceFn "notTaZ" = none ∧
    fromisoformatFn "notTa+00:00" = none ∧
    convert_time_format "notTaZ" = "notTa+00:00" ∧
    convert_time_format "notTaZ" ≠ "notTaZ" := by
  decide

/-- C2 (amended): timestamps matching one of the three configured input
formats (tried in order) are returned reformatted through the output format;
otherwise, when the string contains "T", a trailing "Z" is replaced by
"+00:00" (`zFix`) and a general ISO-8601 parse is attempted; if every parse
fails the function returns the original string, except that a string that
contained "T" and ended in "Z" is returned in its Z-replaced form; the empty
string yields the empty string. -/
theorem c2_time_format_amended (s : String) :
    (s = "" → convert_time_format s = "") ∧
    (∀ dt, s ≠ "" → strptimeIsoTzFn s = some dt →
      convert_time_format s = strftimeOut dt) ∧
    (∀ dt, s ≠ "" → strptimeIsoTzFn s = none → strptimeIsoNoTzFn s = some dt →
      convert_time_format s = strftimeOut dt) ∧
    (∀ dt, s ≠ "" → strptimeIsoTzFn s = none → strptimeIsoNoTzFn s = none →
      strptimeSpaceFn s = some dt → convert_time_format s = strftimeOut dt) ∧
    (s ≠ "" → tryInputFormats s = none → s.toList.contains 'T' = false →
      convert_time_format s = s) ∧
    (s ≠ "" → tryInputFormats s = none → s.toList.contains 'T' = true →
      (∀ dt, fromisoformatFn (zFix s) = some dt →
        convert_time_format s = strftimeOut dt) ∧
      (fromisoformatFn (zFix s) = none → convert_time_format s = zFix s)) := by
  refine ⟨?_, ?_, ?_, ?_, ?_, ?_⟩
  · intro h
    simp [convert_time_format, h]
  · intro dt hne h1
    simp [convert_time_format, hne, tryInputFormats, h1]
  · intro dt hne h1 h2
    simp [convert_time_format, hne, tryInputFormats, h1, h2]
  · intro dt hne h1 h2 h3
    simp [convert_time_format, hne, tryInputFormats, h1, h2, h3]
  · intro hne h0 hT
    simp at hT
    simp [convert_time_format, hne, h0, hT]
  · intro hne h0 hT
    simp at hT
    constructor
    · intro dt hf
      simp [convert_time_format, hne, h0, hT, hf]
    · intro hf
      simp [convert_time_format, hne, h0, hT, hf]

/-- C2 witness: the space-separated format input "2024-01-01 12:00:00" is
parsed by the third configured format and reformatted. -/
theorem c2_time_format_witness :
    convert_time_format "2024-01-01 12:00:00" =
      strftimeOut ⟨2024, 1, 1, 12, 0, 0, none⟩ :=
  (c2_time_format_amended "2024-01-01 12:00:00").2.2.2.1
    ⟨2024, 1, 1, 12, 0, 0, none⟩ (by decide) (by decide) (by decide) (by decide)

/-- C3: a pool-type code (int or string) whose string form appears among the
values of `POOLTYPE_MAPPING` is converted to the corresponding key (the
symbolic label); a code whose string form appears among no value passes
through as its string form. -/
theorem c3_pool_type_mapping (code : IntOrStr) :
    (∀ label, (label, pyStr code) ∈ POOLTYPE_MAPPING →
      convert_card_pool_type code = label) ∧
    ((∀ kv ∈ POOLTYPE_MAPPING, kv.2 ≠ pyStr code) →
      convert_card_pool_type code = pyStr code) := by
  constructor
  · intro label h
    simp only [POOLTYPE_MAPPING, List.mem_cons, List.not_mem_nil, or_false] at h
    rcases h with h | h | h | h | h | h | h | h | h
    all_goals
      rw [Prod.mk.injEq] at h
      obtain ⟨h1, h2⟩ := h
      subst h1
      unfold convert_card_pool_type
      rw [h2]
      decide
  · intro h
    unfold convert_card_pool_type
    have hru : reverse_mapping = POOLTYPE_MAPPING.map (fun kv => (kv.2, kv.1)) := by
      decide
    have hnone : alookup reverse_mapping (pyStr code) = none := by
      apply alookup_eq_none
      intro p hp
      rw [hru] at hp
      obtain ⟨kv, hkv, hpe⟩ := List.mem_map.mp hp
      have hne := h kv hkv
      rw [← hpe]
      simpa using hne
    rw [hnone]
    rfl

/-- C3 witness: code 1 maps to the character-banner label; the unknown code
"abc" passes through unchanged. -/
theorem c3_pool_type_witness :
    convert_card_pool_type (.int 1) = "角色精准调谐" ∧
    convert_card_pool_type (.str "abc") = "abc" :=
  ⟨(c3_pool_type_mapping (.int 1)).1 "角色精准调谐" (by decide),
   (c3_pool_type_mapping (.str "abc")).2 (by decide)⟩

/-- C4: with the resource maps built by the remote-fetch loaders, a record
whose resourceType is "Weapon" (resp. "Character") has its resourceId looked
up in the weapon (resp. character) map; a hit returns the mapped localized
name without warning, a miss logs the warning and keeps the original name;
any other resourceType keeps the original name without warning. The boolean
component of `convert_name` records whether the warning branch was taken. -/
theorem c4_name_resolution (wes ces : List ApiEntry) (m : ResourceMapper)
    (hm : m = ⟨load_mapping wes, load_mapping ces⟩)
    (rid : Int) (rtype orig : String) :
    (rtype = "Weapon" →
      (∀ nm, alookup m.weapon_map rid = some nm →
        convert_name m rid rtype orig = (nm, false)) ∧
      (alookup m.weapon_map rid = none →
        convert_name m rid rtype orig = (orig, true))) ∧
    (rtype = "Character" →
      (∀ nm, alookup m.character_map rid = some nm →
        convert_name m rid rtype orig = (nm, false)) ∧
      (alookup m.character_map rid = none →
        convert_name m rid rtype orig = (orig, true))) ∧
    (rtype ≠ "Weapon" → rtype ≠ "Character" →
      convert_name m rid rtype orig = (orig, false)) := by
  refine ⟨?_, ?_, ?_⟩
  · intro hw
    subst hw
    constructor
    · intro nm hl
      have hne : nm ≠ "" := by
        have hmem := alookup_mem _ _ _ hl
        rw [hm] at hmem
        exact load_mapping_values_ne_empty wes (rid, nm) hmem
      simp [convert_name, hl, hne]
    · intro hl
      simp [convert_name, hl]
  · intro hc
    subst hc
    constructor
    · intro nm hl
      have hne : nm ≠ "" := by
        have hmem := alookup_mem _ _ _ hl
        rw [hm] at hmem
        exact load_mapping_values_ne_empty ces (rid, nm) hmem
      simp [convert_name, hl, hne]
    · intro hl
      simp [convert_name, hl]
  · intro hw hc
    simp [convert_name, hw, hc]

/-- C4 witness: a hit substitutes the localized name, a miss warns and keeps
the original, an unrecognized type keeps the original without warning. -/
theorem c4_name_resolution_witness :
    convert_name ⟨load_mapping [⟨some 1, some "测试武器"⟩], load_mapping []⟩ 1
      "Weapon" "TestWeapon" = ("测试武器", false) ∧
    convert_name ⟨load_mapping [⟨some 1, some "测试武器"⟩], load_mapping []⟩ 2
      "Weapon" "Orig" = ("Orig", true) ∧
    convert_name ⟨load_mapping [⟨some 1, some "测试武器"⟩], load_mapping []⟩ 1
      "Other" "Orig" = ("Orig", false) :=
  ⟨((c4_name_resolution [⟨some 1, some "测试武器"⟩] [] _ rfl 1 "Weapon"
      "TestWeapon").1 rfl).1 "测试武器" (by decide),
   ((c4_name_resolution [⟨some 1, some "测试武器"⟩] [] _ rfl 2 "Weapon"
      "Orig").1 rfl).2 (by decide),
   (c4_name_resolution [⟨some 1, some "测试武器"⟩] [] _ rfl 1 "Other"
      "Orig").2.2 (by decide) (by decide)⟩

/-- C5: for a workbook, the exported uid is the first purely-numeric sheet
name when one exists and "unknown" otherwise; for a tracker JSON document,
the uid is the playerId field when present and "unknown" otherwise. -/
theorem c5_uid (wb : Workbook) (m : ResourceMapper) (j : InputJsonData) :
    (∀ u, (wb.sheets.map Sheet.name).find? pyIsdigit = some u →
      (excel_process ⟨true, true, some wb⟩).uid = u) ∧
    ((wb.sheets.map Sheet.name).find? pyIsdigit = none →
      (excel_process ⟨true, true, some wb⟩).uid = "unknown") ∧
    (∀ pid, j.playerId = some pid → (processJsonData m j).uid = pid) ∧
    (j.playerId = none → (processJsonData m j).uid = "unknown") := by
  refine ⟨?_, ?_, ?_, ?_⟩
  · intro u hu
    simp [excel_process, process_uid_eq_find, hu]
  · intro hu
    simp [excel_process, process_uid_eq_find, hu]
  · intro pid hp
    simp [processJsonData, hp]
  · intro hp
    simp [processJsonData, hp]

/-- C5 witness: a workbook whose second sheet name is numeric, a JSON with a
playerId, and a JSON without one. -/
theorem c5_uid_witness :
    (excel_process ⟨true, true,
      some ⟨[⟨"Sheet1", [], []⟩, ⟨"123456", [], []⟩]⟩⟩).uid = "123456" ∧
    (processJsonData emptyMapper ⟨some "12345", none⟩).uid = "12345" ∧
    (processJsonData emptyMapper ⟨none, none⟩).uid = "unknown" :=
  ⟨(c5_uid ⟨[⟨"Sheet1", [], []⟩, ⟨"123456", [], []⟩]⟩ emptyMapper
      ⟨none, none⟩).1 "123456" (by decide),
   (c5_uid ⟨[]⟩ emptyMapper ⟨some "12345", none⟩).2.2.1 "12345" rfl,
   (c5_uid ⟨[]⟩ emptyMapper ⟨none, none⟩).2.2.2 rfl⟩

/-- C6: a sheet whose column-header set misses a required column contributes
no records; the workbook output is the concatenation of the per-sheet
results, so every other sheet is still processed; and `process` still
succeeds for the file. -/
theorem c6_missing_columns (wb : Workbook) (sheet : Sheet)
    (hmem : sheet ∈ wb.sheets)
    (hmiss : ∃ c ∈ REQUIRED_COLUMNS, c ∉ sheet.columns) :
    process_one_sheet sheet = [] ∧
    (excel_process ⟨true, true, some wb⟩).ok = true ∧
    (excel_process ⟨true, true, some wb⟩).recList =
      (wb.sheets.map process_one_sheet).flatten := by
  refine ⟨?_, ?_, ?_⟩
  · obtain ⟨c, hc, hnc⟩ := hmiss
    have hval : validate_columns sheet.columns = false := by
      by_contra hv
      rw [Bool.not_eq_false] at hv
      rw [validate_columns, List.all_eq_true] at hv
      exact hnc (by simpa using hv c hc)
    simp [process_one_sheet, hval]
  · simp [excel_process]
  · simp [excel_process, process_sheets_eq_join]

/-- C6 witness: a workbook whose first sheet misses the resource-id column
and whose second sheet is well-formed. -/
theorem c6_missing_columns_witness :
    process_one_sheet ⟨"bad", ["卡池"], []⟩ = [] ∧
    (excel_process ⟨true, true, some ⟨[⟨"bad", ["卡池"], []⟩,
      ⟨"123", REQUIRED_COLUMNS, []⟩]⟩⟩).ok = true ∧
    (excel_process ⟨true, true, some ⟨[⟨"bad", ["卡池"], []⟩,
      ⟨"123", REQUIRED_COLUMNS, []⟩]⟩⟩).recList =
      ([⟨"bad", ["卡池"], []⟩, ⟨"123", REQUIRED_COLUMNS, []⟩].map
        process_one_sheet).flatten :=
  c6_missing_columns
    ⟨[⟨"bad", ["卡池"], []⟩, ⟨"123", REQUIRED_COLUMNS, []⟩]⟩
    ⟨"bad", ["卡池"], []⟩ (by decide) ⟨"资源ID", by decide, by decide⟩

theorem convert_name_empty_mapper (rid : Int) (rt orig : String) :
    (convert_name emptyMapper rid rt orig).1 = orig := by
  simp [convert_name, emptyMapper, alookup]

theorem collect_convert_record_length (m : ResourceMapper)
    (pulls : List InputRecord) :
    (collectConverted (convert_record m) pulls).length = pulls.length := by
  induction pulls with
  | nil => rfl
  | cons p ps ih => simp [collectConverted, convert_record, ih]

theorem collect_empty_mapper (m : ResourceMapper) (pulls : List InputRecord) :
    collectConverted (convert_record emptyMapper) pulls =
      List.zipWith (fun (r : Record) (p : InputRecord) =>
        { r with name := p.name.getD "" })
        (collectConverted (convert_record m) pulls) pulls := by
  induction pulls with
  | nil => rfl
  | cons p ps ih =>
    simp [collectConverted, convert_record, ih, convert_name_empty_mapper]

/-- C7: the output list is exactly the successfully converted records in
input encounter order (`filterMap` over the pulls), and a failing record is
dropped while conversion continues with the remaining records, preserving
their relative order. -/
theorem c7_skip_failed {α β : Type} (m : ResourceMapper) (j : InputJsonData)
    (conv : α → Option β) (xs ys : List α) (bad : α)
    (hbad : conv bad = none) :
    (processJsonData m j).recList =
      (j.pulls.getD []).filterMap (convert_record m) ∧
    collectConverted conv (xs ++ bad :: ys) =
      collectConverted conv xs ++ collectConverted conv ys := by
  constructor
  · simp [processJsonData, collectConverted_eq_filterMap]
  · simp [collectConverted_eq_filterMap, List.filterMap_append,
      List.filterMap_cons, hbad]

/-- C7 witness: a failing middle element is dropped and the surrounding
conversions are kept in order. -/
theorem c7_skip_failed_witness :
    (processJsonData emptyMapper ⟨none, none⟩).recList =
      ((⟨none, none⟩ : InputJsonData).pulls.getD []).filterMap
        (convert_record emptyMapper) ∧
    collectConverted (fun n : Nat => if n = 0 then none else some n)
        ([1] ++ 0 :: [2]) =
      collectConverted (fun n : Nat => if n = 0 then none else some n) [1] ++
        collectConverted (fun n : Nat => if n = 0 then none else some n) [2] :=
  c7_skip_failed emptyMapper ⟨none, none⟩
    (fun n => if n = 0 then none else some n) [1] [2] 0 rfl

/-- C8: running the JSON conversion with both resource maps empty still
succeeds, yields the same uid and record count as a run with populated maps,
and the records agree field-for-field except that each name equals the source
record's (untranslated) name field. -/
theorem c8_empty_maps (m : ResourceMapper) (j : InputJsonData) :
    (processJsonData emptyMapper j).ok = true ∧
    (processJsonData m j).ok = true ∧
    (processJsonData emptyMapper j).uid = (processJsonData m j).uid ∧
    (processJsonData emptyMapper j).recList.length =
      (processJsonData m j).recList.length ∧
    (processJsonData emptyMapper j).recList =
      List.zipWith (fun (r : Record) (p : InputRecord) =>
        { r with name := p.name.getD "" })
        ((processJsonData m j).recList) (j.pulls.getD []) := by
  refine ⟨rfl, rfl, rfl, ?_, ?_⟩
  · simp [processJsonData, collect_convert_record_length]
  · exact collect_empty_mapper m (j.pulls.getD [])

/-- C9: the public `process` of each converter returns a plain boolean and
leaves the export state untouched on failure: false with an empty record list
when the file does not exist, is unreadable, or (JSON converter) does not
parse; true otherwise. -/
theorem c9_process_boolean (m : ResourceMapper) (f : JsonFileM)
    (g : ExcelFileM) :
    ((f.ex = false ∨ f.rd = false ∨ f.parsed = none) →
      json_process m f = ⟨false, "unknown", []⟩) ∧
    (∀ j, f.ex = true → f.rd = true → f.parsed = some j →
      json_process m f = processJsonData m j ∧ (json_process m f).ok = true) ∧
    ((g.ex = false ∨ g.rd = false ∨ g.wb = none) →
      excel_process g = ⟨false, "unknown", []⟩) ∧
    (∀ wb, g.ex = true → g.rd = true → g.wb = some wb →
      (excel_process g).ok = true) := by
  obtain ⟨ex, rd, parsed⟩ := f
  obtain ⟨gex, grd, gwb⟩ := g
  refine ⟨?_, ?_, ?_, ?_⟩
  · intro h
    cases ex with
    | false => rfl
    | true =>
      cases rd with
      | false => rfl
      | true =>
        rcases h with h | h | h
        · exact absurd h (by simp)
        · exact absurd h (by simp)
        · rw [show parsed = none from h]
          rfl
  · intro j h1 h2 h3
    rw [show ex = true from h1, show rd = true from h2,
      show parsed = some j from h3]
    exact ⟨rfl, rfl⟩
  · intro h
    cases gex with
    | false => rfl
    | true =>
      cases grd with
      | false => rfl
      | true =>
        rcases h with h | h | h
        · exact absurd h (by simp)
        · exact absurd h (by simp)
        · rw [show gwb = none from h]
          rfl
  · intro wb h1 h2 h3
    rw [show gex = true from h1, show grd = true from h2,
      show gwb = some wb from h3]
    rfl

/-- C9 witness: a missing file and an invalid-JSON file fail with empty
output; an existing readable parsed file succeeds, for both converters. -/
theorem c9_process_boolean_witness :
    json_process emptyMapper ⟨false, true, none⟩ = ⟨false, "unknown", []⟩ ∧
    json_process emptyMapper ⟨true, true, none⟩ = ⟨false, "unknown", []⟩ ∧
    (json_process emptyMapper ⟨true, true, some ⟨none, none⟩⟩).ok = true ∧
    excel_process ⟨true, false, none⟩ = ⟨false, "unknown", []⟩ ∧
    (excel_process ⟨true, true, some ⟨[]⟩⟩).ok = true :=
  ⟨(c9_process_boolean emptyMapper ⟨false, true, none⟩ ⟨true, false, none⟩).1
      (Or.inl rfl),
   (c9_process_boolean emptyMapper ⟨true, true, none⟩ ⟨true, false, none⟩).1
      (Or.inr (Or.inr rfl)),
   ((c9_process_boolean emptyMapper ⟨true, true, some ⟨none, none⟩⟩
      ⟨true, false, none⟩).2.1 ⟨none, none⟩ rfl rfl rfl).2,
   (c9_process_boolean emptyMapper ⟨false, true, none⟩
      ⟨true, false, none⟩).2.2.1 (Or.inr (Or.inl rfl)),
   (c9_process_boolean emptyMapper ⟨false, true, none⟩
      ⟨true, true, some ⟨[]⟩⟩).2.2.2 ⟨[]⟩ rfl rfl rfl⟩

/-- C10: missing input fields receive the fixed defaults before conversion
(cardPoolType 0 emitted as "0", resourceId 0, qualityLevel 3, resourceType
and name the empty string, count 1, time the empty string), and the entirely
empty pull still yields an output record. -/
theorem c10_defaults (m : ResourceMapper) (p : InputRecord) :
    convert_record m emptyPull = some defaultRecord ∧
    (∀ r, convert_record m p = some r →
      (p.cardPoolType = none → r.cardPoolType = "0") ∧
      (p.resourceId = none → r.resourceId = 0) ∧
      (p.qualityLevel = none → r.qualityLevel = 3) ∧
      (p.resourceType = none → r.resourceType = "") ∧
      (p.resourceType = none → p.name = none → r.name = "") ∧
      (p.count = none → r.count = 1) ∧
      (p.time = none → r.time = "")) := by
  have h0 : convert_card_pool_type (.int 0) = "0" := by decide
  have h1 : convert_resource_type "" = "" := by decide
  have h2 : convert_time_format "" = "" := by decide
  constructor
  · simp [convert_record, emptyPull, defaultRecord, h0, h1, h2, convert_name]
  · intro r hr
    simp only [convert_record, Option.some.injEq] at hr
    subst hr
    refine ⟨?_, ?_, ?_, ?_, ?_, ?_, ?_⟩
    · intro h
      simp [h, h0]
    · intro h
      simp [h]
    · intro h
      simp [h]
    · intro h
      simp [h, h1]
    · intro ht hn
      simp [ht, hn, convert_name]
    · intro h
      simp [h]
    · intro h
      simp [h, h2]

/-- C10 witness: the entirely empty pull object yields the default record. -/
theorem c10_defaults_witness :
    convert_record emptyMapper emptyPull = some defaultRecord ∧
    defaultRecord.cardPoolType = "0" ∧ defaultRecord.resourceId = 0 ∧
    defaultRecord.qualityLevel = 3 ∧ defaultRecord.resourceType = "" ∧
    defaultRecord.name = "" ∧ defaultRecord.count = 1 ∧
    defaultRecord.time = "" := by
  have h := c10_defaults emptyMapper emptyPull
  have h2 := h.2 defaultRecord h.1
  exact ⟨h.1, h2.1 rfl, h2.2.1 rfl, h2.2.2.1 rfl, h2.2.2.2.1 rfl,
    h2.2.2.2.2.1 rfl rfl, h2.2.2.2.2.2.1 rfl, h2.2.2.2.2.2.2 rfl⟩

end WuwaConvert
